import Mathlib

/-!
Verification of the ggshield path-scan workflow and the `config set` command.

The repository ships the `config_set_cmd` source and the unit tests of
`ggshield secret scan path`; the scan implementation itself (path collection,
ignore policy, confirmation gate, batching, aggregation) is not part of the
visible sources, so those components are modelled from the specification and
marked as such on each definition.  `config_set_cmd` is embedded directly from
`src/ggshield/cmd/config/config_set.py`.

All recursive definitions are structural (fuel-indexed where the natural
recursion is not), so every operation evaluates on concrete inputs inside the
kernel.
-/

namespace GGShield

/-! ## Exit codes -/

/-- Modelled from the spec: exit code for a successful run (also used for a
user abort and for `--exit-zero` runs with findings). -/
def ExitCode.SUCCESS : Nat := 0

/-- Modelled from the spec: distinct non-zero exit code used when findings are
present and not suppressed (`ExitCode.SCAN_FOUND_PROBLEMS` in the tests). -/
def ExitCode.SCAN_FOUND_PROBLEMS : Nat := 1

/-- Modelled from the spec: distinct non-zero exit code for usage errors
(bad path, ignored-path conflict); the tests assert the value 2. -/
def ExitCode.USAGE_ERROR : Nat := 2

/-! ## List-of-character string utilities (structural, kernel-evaluable) -/

/-- Whether `pre` is a prefix of `s`. -/
def listPrefixOf : List Char → List Char → Bool
  | [], _ => true
  | _ :: _, [] => false
  | p :: ps, c :: cs => p == c && listPrefixOf ps cs

/-- The characters of `s` strictly after the first occurrence of the
separator `sep`, or `none` when `sep` does not occur in `s`. -/
def afterFirst (sep : List Char) : List Char → Option (List Char)
  | [] => if sep.isEmpty then some [] else none
  | c :: cs =>
      if listPrefixOf sep (c :: cs) then some ((c :: cs).drop sep.length)
      else afterFirst sep cs

/-- The characters of `s` before the first occurrence of `c` (all of `s` when
`c` does not occur). -/
def takeUntil (c : Char) : List Char → List Char
  | [] => []
  | x :: xs => if x == c then [] else x :: takeUntil c xs

/-- The first occurrence of `c` in `s` and everything after it (empty when
`c` does not occur). -/
def dropUntil (c : Char) : List Char → List Char
  | [] => []
  | x :: xs => if x == c then x :: xs else dropUntil c xs

/-- The characters of `s` strictly after the last occurrence of `c` (all of
`s` when `c` does not occur). -/
def afterLast (c : Char) (s : List Char) : List Char :=
  ((s.reverse.takeWhile (fun x => x != c)).reverse)

/-- Whether `suf` is a suffix of `s`. -/
def listSuffixOf (suf s : List Char) : Bool :=
  listPrefixOf suf.reverse s.reverse

/-! ## Ignore rules: literal and glob matching -/

/-- Fuel-indexed worker for `globMatch`; any fuel of at least
`pattern.length + path.length + 1` reaches a base case before running out. -/
def globMatchAux : Nat → List Char → List Char → Bool
  | 0, _, _ => false
  | _ + 1, [], [] => true
  | _ + 1, [], _ :: _ => false
  | fuel + 1, '*' :: ps, [] => globMatchAux fuel ps []
  | fuel + 1, '*' :: ps, c :: cs =>
      globMatchAux fuel ps (c :: cs) || globMatchAux fuel ('*' :: ps) cs
  | _ + 1, _ :: _, [] => false
  | fuel + 1, p :: ps, c :: cs => p == c && globMatchAux fuel ps cs

/-- Modelled from the spec (IgnorePolicy, missing from the sources): glob
matching of a pattern against a path, where `*` matches any character
sequence, including across path segments; a pattern without `*` only matches
the literal path. -/
def globMatch (ps cs : List Char) : Bool :=
  globMatchAux (ps.length + cs.length + 1) ps cs

/-- A single ignore rule applied to a relative path string. -/
def matchRule (rule path : String) : Bool :=
  globMatch rule.toList path.toList

/-- Modelled from the spec (IgnorePolicy, missing from the sources):
short-circuiting OR over all configured rules. -/
def isIgnored (rules : List String) (path : String) : Bool :=
  rules.any (fun r => matchRule r path)

/-! ## Filesystem model and path collection -/

/-- A filesystem is the list of files on disk, as relative path strings. -/
abbrev FileSystem := List String

/-- Whether `p` names a directory with files strictly below it. -/
def isDirIn (fs : FileSystem) (p : String) : Bool :=
  fs.any (fun f => listPrefixOf (p.toList ++ ['/']) f.toList)

/-- Whether `p` names a directory target: the scan root itself or a directory
containing files. -/
def isDirTarget (fs : FileSystem) (p : String) : Bool :=
  p == "." || p == "./" || isDirIn fs p

/-- Modelled from the spec (PathCollector, missing from the sources): a named
path exists when it is a file on disk, a directory containing files, or the
current directory itself. -/
def pathExists (fs : FileSystem) (p : String) : Bool :=
  fs.contains p || isDirTarget fs p

/-- Modelled from the spec (PathCollector, missing from the sources): the
files reached from one named target — the target itself when it is a file,
every file below it when it is a directory. -/
def filesUnder (fs : FileSystem) (p : String) : List String :=
  if p == "." || p == "./" then fs
  else if fs.contains p then [p]
  else fs.filter (fun f => listPrefixOf (p.toList ++ ['/']) f.toList)

/-- Modelled from the spec (PathCollector, missing from the sources): walk all
targets and drop every file matching an exclusion rule.  Collection never
consults version-control tracking information. -/
def collectCandidates (fs : FileSystem) (targets : List String)
    (rules : List String) : List String :=
  ((targets.map (filesUnder fs)).flatten).filter (fun f => !isIgnored rules f)

/-! ## Repository context normalization -/

/-- Drop the scheme (`https://`, `ssh://`, ...) from a URL, if present. -/
def stripScheme (s : List Char) : List Char :=
  match afterFirst (':' :: '/' :: '/' :: []) s with
  | some rest => rest
  | none => s

/-- Drop `user:password@` credentials from the authority part of a URL. -/
def stripCredentials (s : List Char) : List Char :=
  afterLast '@' (takeUntil '/' s) ++ dropUntil '/' s

/-- Drop a trailing `.git` suffix. -/
def stripDotGit (s : List Char) : List Char :=
  if listSuffixOf ('.' :: 'g' :: 'i' :: 't' :: []) s then s.take (s.length - 4)
  else s

/-- Modelled from the spec (ScanBatcher, missing from the sources): normalize
a remote URL to `host/owner/repo` by stripping scheme, credentials and the
`.git` suffix. -/
def repositoryContext (url : String) : String :=
  String.mk (stripDotGit (stripCredentials (stripScheme url.toList)))

/-! ## Findings, batches, and the scan run -/

/-- One detected secret occurrence as rendered in a report; `validity` is
`none` when the service reported no validity information. -/
structure Finding where
  detector : String
  file : String
  validity : Option String
  occurrences : Nat
  knownByDashboard : Bool
  incidentUrl : Option String
  fingerprint : String
deriving DecidableEq

/-- One request-sized group of candidate files together with the optional
repository-context value attached to it. -/
structure Batch where
  files : List String
  context : Option String
deriving DecidableEq

/-- Modelled from the spec: validity label shown in the report; absent
validity information renders as `"No Checker"`. -/
def validityLabel : Option String → String
  | none => "No Checker"
  | some v => v

/-- Modelled from the spec: incident URL shown in the report, `"N/A"` when
absent. -/
def incidentUrlLabel : Option String → String
  | none => "N/A"
  | some u => u

/-- Modelled from the spec (Reporter boundary): the human-readable lines
describing one Finding, as the tests match them. -/
def renderFinding (f : Finding) : List String :=
  ("Secret detected: " ++ f.detector) ::
  ("Validity: " ++ validityLabel f.validity) ::
  ("Occurrences: " ++ toString f.occurrences) ::
  ("Known by GitGuardian dashboard: " ++ (if f.knownByDashboard then "YES" else "NO")) ::
  ("Incident URL: " ++ incidentUrlLabel f.incidentUrl) ::
  ("Secret SHA: " ++ f.fingerprint) :: []

/-- One invocation of `ggshield secret scan path`, with the environment it
runs in: the CLI arguments, the filesystem, the merged configuration, the
operator's answer to a confirmation prompt, the version-control remote of the
scan root, and the findings the remote service returns for the scanned
content. -/
structure ScanInvocation where
  targets : List String
  filesystem : FileSystem
  configIgnored : List String
  excludes : List String
  recursive : Bool
  yes : Bool
  verbose : Bool
  jsonOutput : Bool
  exitZero : Bool
  answerYes : Bool
  ignoredDetectors : List String
  remoteUrl : Option String
  serverFindings : List Finding

/-- The observable outcome of a scan-path run: process exit code, whether the
operator was prompted, the batches dispatched to the scanning service, the
final report, and the headline message. -/
structure ScanResult where
  exitCode : Nat
  prompted : Bool
  dispatched : List Batch
  report : List Finding
  message : String
deriving DecidableEq

/-- The ignore rules of a run: global configuration plus `--exclude` flags. -/
def mergedRules (inv : ScanInvocation) : List String :=
  inv.configIgnored ++ inv.excludes

/-- Modelled from the spec (ResultAggregator, missing from the sources):
post-hoc detector-name filtering drops Findings whose detector name is in the
`-b` (`--ignore-detector`) exclusion set. -/
def filteredFindings (inv : ScanInvocation) : List Finding :=
  inv.serverFindings.filter (fun f => !inv.ignoredDetectors.contains f.detector)

/-- Maximum number of files per batch dispatched to the service. -/
def BATCH_MAX_FILES : Nat := 20

/-- Fuel-indexed worker for `batchesOf`; fuel `xs.length` suffices since each
step consumes at least one element. -/
def chunkAux (n : Nat) : Nat → List String → List (List String)
  | _, [] => []
  | 0, xs => [xs]
  | fuel + 1, x :: xs => (x :: xs.take (n - 1)) :: chunkAux n fuel (xs.drop (n - 1))

/-- Partition a candidate list into ordered batches of at most `n` files. -/
def batchesOf (n : Nat) (xs : List String) : List (List String) :=
  chunkAux n xs.length xs

/-- The usage-error message for an explicitly named ignored path, as the test
asserts it. -/
def ignoredScanMessage : String :=
  "An ignored file or directory cannot be scanned."

/-- The usage-error message for a named path missing from disk. -/
def doesNotExistMessage (p : String) : String :=
  "Path " ++ p ++ " does not exist"

/-- Modelled from the spec (PathCollector, missing from the sources): the
usage-error message for a directory target without `-r`. -/
def isDirectoryMessage (p : String) : String :=
  "Path " ++ p ++ " is a directory, use -r"

/-- The headline of a run that found nothing, as the tests assert it. -/
def noSecretsMessage : String :=
  "No secrets have been found"

/-- Modelled from the spec (ScanBatcher + ResultAggregator, missing from the
sources): dispatch the candidates in batches — each carrying the normalized
repository context when a remote is configured, and no context otherwise —
then filter the returned findings by detector name and compute the final exit
status, honouring `--exit-zero`. -/
def performScan (inv : ScanInvocation) (candidates : List String)
    (prompted : Bool) : ScanResult :=
  let findings := filteredFindings inv
  { exitCode :=
      if findings.isEmpty || inv.exitZero then ExitCode.SUCCESS
      else ExitCode.SCAN_FOUND_PROBLEMS
    prompted := prompted
    dispatched :=
      (batchesOf BATCH_MAX_FILES candidates).map
        (fun b => ⟨b, inv.remoteUrl.map repositoryContext⟩)
    report := findings
    message := if findings.isEmpty then noSecretsMessage else "problems found" }

/-- Modelled from the spec (run-level state machine, missing from the
sources): `Collecting → Confirming → Batching → Scanning → Aggregating →
Reporting`.  A named path missing from disk is a usage error before anything
else; an explicitly named path matching an ignore rule is a usage error; a
directory target without `-r` is a usage error; with candidates and no `-y`,
a negative answer to the prompt aborts with success and no scan. -/
def runScanPath (inv : ScanInvocation) : ScanResult :=
  match inv.targets.find? (fun t => !pathExists inv.filesystem t) with
  | some t => ⟨ExitCode.USAGE_ERROR, false, [], [], doesNotExistMessage t⟩
  | none =>
    if inv.targets.any (fun t => isIgnored (mergedRules inv) t) then
      ⟨ExitCode.USAGE_ERROR, false, [], [], ignoredScanMessage⟩
    else match inv.recursive, inv.targets.find? (fun t => isDirTarget inv.filesystem t) with
    | false, some t => ⟨ExitCode.USAGE_ERROR, false, [], [], isDirectoryMessage t⟩
    | _, _ =>
      let candidates := collectCandidates inv.filesystem inv.targets (mergedRules inv)
      if inv.yes || candidates.isEmpty then performScan inv candidates false
      else if inv.answerYes then performScan inv candidates true
      else ⟨ExitCode.SUCCESS, true, [], [], ""⟩

/-- A run is free of usage errors when every target exists, no target is
explicitly ignored, and directory targets only appear with `-r`. -/
def usageErrorFree (inv : ScanInvocation) : Bool :=
  inv.targets.all (fun t => pathExists inv.filesystem t) &&
  !inv.targets.any (fun t => isIgnored (mergedRules inv) t) &&
  (inv.recursive || !inv.targets.any (fun t => isDirTarget inv.filesystem t))

/-- The result of aborting at the confirmation prompt: success, no scan. -/
def abortResult : ScanResult :=
  ⟨ExitCode.SUCCESS, true, [], [], ""⟩

/-! ## The `config set` command, embedded from
`src/ggshield/cmd/config/config_set.py` -/

/-- One configuration field descriptor, as looked up in `FIELDS` (the
`.constants` module is not among the sources): the field's stored name,
whether it may be set per instance, and whether it lives in the auth
config. -/
structure ConfigField where
  name : String
  per_instance_ok : Bool
  auth_config : Bool

/-- A configuration value after the command's per-case type conversion. -/
inductive ConfigValue where
  | str (s : String)
  | int (n : Int)
deriving DecidableEq

/-- One side effect of `config_set_cmd` on stored configuration: a `setattr`
on an instance config, the auth config or the user config, or a `save`. -/
inductive ConfigEvent where
  | setattrInstance (inst field : String) (v : ConfigValue)
  | setattrAuth (field : String) (v : ConfigValue)
  | setattrUser (field : String) (v : ConfigValue)
  | saveAuth
  | saveUser
deriving DecidableEq

/-- Whether an event writes a configuration file. -/
def ConfigEvent.isSave : ConfigEvent → Bool
  | .saveAuth => true
  | .saveUser => true
  | _ => false

/-- Model of Python `int(str)` as `config_set_cmd` uses it: surrounding
whitespace is stripped, an optional sign precedes a non-empty digit string. -/
def pyInt? (s : String) : Option Int :=
  let t := ((s.toList.dropWhile Char.isWhitespace).reverse.dropWhile
    Char.isWhitespace).reverse
  let core : Bool × List Char :=
    match t with
    | '-' :: rest => (true, rest)
    | '+' :: rest => (false, rest)
    | _ => (false, t)
  if core.2.isEmpty || !core.2.all Char.isDigit then none
  else
    let n : Nat := core.2.foldl (fun acc c => acc * 10 + (c.toNat - 48)) 0
    some (if core.1 then -(n : Int) else (n : Int))

/-- Python truthiness of the `--instance` option: `None` and the empty
string are falsy. -/
def instanceTruthy : Option String → Bool
  | none => false
  | some s => s != ""

/-- Embedded from `src/ggshield/cmd/config/config_set.py`, `config_set_cmd`.
The Python command mutates and saves configuration objects; the embedding
returns the ordered list of `setattr`/`save` effects together with the
command's outcome — `Except.error` for a raised `BadParameter`.  In the
source every `raise` precedes any `setattr` and `save` on its control path,
so the error branches record no effects.  `int(value)` runs only for the
`default_token_lifetime` field; `if instance:` follows Python truthiness. -/
def config_set_cmd (field_name : String) (field : ConfigField) (value : String)
    (instanceOpt : Option String) : List ConfigEvent × Except String Nat :=
  if field_name == "default_token_lifetime" && (pyInt? value).isNone then
    ([], .error "default_token_lifetime must be an int")
  else
    let v : ConfigValue :=
      if field_name == "default_token_lifetime" then .int ((pyInt? value).getD 0)
      else .str value
    if instanceTruthy instanceOpt then
      if field.per_instance_ok then
        ([.setattrInstance (instanceOpt.getD "") field_name v, .saveAuth], .ok 0)
      else
        ([], .error (field_name ++ " cannot be set per instance"))
    else if field.auth_config then
      ([.setattrAuth field.name v, .saveAuth], .ok 0)
    else
      ([.setattrUser field.name v, .saveUser], .ok 0)

/-! ## Concrete runs used as evaluation witnesses -/

/-- The finding of `test_scan_file_secret`: one unchecked development secret. -/
def uncheckedFinding : Finding where
  detector := "GitGuardian Development Secret"
  file := "file_secret"
  validity := none
  occurrences := 1
  knownByDashboard := false
  incidentUrl := none
  fingerprint := "4f307a4cae8f14cc276398c666559a6d4f959640616ed733b168a9ee7ab08fd4"

/-- A finding reported by the SendGrid Key detector. -/
def sendgridFinding : Finding where
  detector := "SendGrid Key"
  file := "file_secret"
  validity := some "Valid"
  occurrences := 1
  knownByDashboard := false
  incidentUrl := none
  fingerprint := "aaa0"

/-- A finding reported by the RSA Private Key detector. -/
def rsaFinding : Finding where
  detector := "RSA Private Key"
  file := "file_secret"
  validity := none
  occurrences := 1
  knownByDashboard := false
  incidentUrl := none
  fingerprint := "bbb1"

/-- A quiet base invocation: two secret-free files, no flags, no remote. -/
def baseInv : ScanInvocation where
  targets := ["file1", "file2"]
  filesystem := ["file1", "file2"]
  configIgnored := []
  excludes := []
  recursive := false
  yes := false
  verbose := false
  jsonOutput := false
  exitZero := false
  answerYes := false
  ignoredDetectors := []
  remoteUrl := none
  serverFindings := []

/-- `test_scan_ignored_directory`: `file1` is in the configured ignored
paths and is named on the command line. -/
def ignoredPathInv : ScanInvocation := { baseInv with
  configIgnored := ["file1"]
  yes := true }

/-- `test_files_abort`: candidates present, no `-y`, operator answers no. -/
def abortInv : ScanInvocation := baseInv

/-- `test_files_yes`: candidates present, `-y` given. -/
def yesInv : ScanInvocation := { baseInv with
  recursive := true
  yes := true }

/-- `test_scan_file_secret_exit_zero`: one secret found, `--exit-zero`. -/
def exitZeroInv : ScanInvocation := { baseInv with
  targets := ["file_secret"]
  filesystem := ["file_secret"]
  yes := true
  exitZero := true
  serverFindings := [uncheckedFinding] }

/-- `test_scan_context_repository`: recursive scan of a working copy whose
remote is `https://github.com/owner/repository.git`. -/
def repoInv : ScanInvocation := { baseInv with
  targets := ["./"]
  recursive := true
  yes := true
  remoteUrl := some "https://github.com/owner/repository.git" }

/-- `test_ignore_detectors` with both detector names excluded. -/
def detectorInv : ScanInvocation := { baseInv with
  targets := ["file_secret"]
  filesystem := ["file_secret"]
  yes := true
  exitZero := true
  ignoredDetectors := ["SendGrid Key", "RSA Private Key"]
  serverFindings := [sendgridFinding, rsaFinding] }

/-- `test_directory_error`: the named path is missing from disk. -/
def missingPathInv : ScanInvocation := { baseInv with
  targets := ["./ewe-failing-test"]
  recursive := true }

/-- `test_scan_file_secret`: one file holding one unchecked secret. -/
def secretInv : ScanInvocation := { baseInv with
  targets := ["file_secret"]
  filesystem := ["file_secret"]
  yes := true
  serverFindings := [uncheckedFinding] }

/-! ## Helper lemmas -/

/-- Membership in the collected candidate set: reached from some target and
matched by no exclusion rule. -/
theorem mem_collectCandidates_iff (fs : FileSystem) (targets rules : List String)
    (f : String) :
    f ∈ collectCandidates fs targets rules ↔
      ((∃ t ∈ targets, f ∈ filesUnder fs t) ∧ ∀ r ∈ rules, matchRule r f = false) := by
  unfold collectCandidates
  simp [List.mem_filter, List.mem_flatten, List.mem_map, isIgnored,
    List.any_eq_false]
  tauto

/-- On a usage-error-free run, `runScanPath` reduces to the confirmation gate
followed by the scan. -/
theorem runScanPath_ok_eq (inv : ScanInvocation) (h : usageErrorFree inv = true) :
    runScanPath inv =
      (if inv.yes ||
          (collectCandidates inv.filesystem inv.targets (mergedRules inv)).isEmpty then
        performScan inv (collectCandidates inv.filesystem inv.targets (mergedRules inv)) false
      else if inv.answerYes then
        performScan inv (collectCandidates inv.filesystem inv.targets (mergedRules inv)) true
      else abortResult) := by
  unfold usageErrorFree at h
  rw [Bool.and_eq_true, Bool.and_eq_true] at h
  obtain ⟨⟨hall, hnoign⟩, hdir⟩ := h
  have hfind : inv.targets.find? (fun t => !pathExists inv.filesystem t) = none := by
    apply List.find?_eq_none.mpr
    intro x hx
    simp [List.all_eq_true.mp hall x hx]
  have hany : (inv.targets.any (fun t => isIgnored (mergedRules inv) t)) = false := by
    simpa using hnoign
  unfold runScanPath
  rw [hfind, hany]
  simp only [Bool.false_eq_true, if_false]
  rw [Bool.or_eq_true] at hdir
  rcases hdir with hrec | hnodir
  · rw [hrec]
    cases (List.find? (fun t => isDirTarget inv.filesystem t) inv.targets) <;> rfl
  · have hfind2 : inv.targets.find? (fun t => isDirTarget inv.filesystem t) = none := by
      apply List.find?_eq_none.mpr
      intro x hx
      have := List.any_eq_false.mp (by simpa using hnodir) x hx
      simp [this]
    rw [hfind2]
    cases hr : inv.recursive <;> rfl

/-- On a usage-error-free run that is confirmed (`-y`, or a positive answer),
the scan is performed on the collected candidates. -/
theorem runScanPath_go (inv : ScanInvocation) (h : usageErrorFree inv = true)
    (hgo : inv.yes = true ∨ inv.answerYes = true) :
    ∃ pr, runScanPath inv =
      performScan inv (collectCandidates inv.filesystem inv.targets (mergedRules inv)) pr := by
  rw [runScanPath_ok_eq inv h]
  by_cases h1 : (inv.yes ||
      (collectCandidates inv.filesystem inv.targets (mergedRules inv)).isEmpty) = true
  · exact ⟨false, by rw [if_pos h1]⟩
  · have hy : inv.yes = false := by
      rcases Bool.or_eq_false_iff.mp (Bool.eq_false_iff.mpr h1) with ⟨hy, _⟩
      exact hy
    rcases hgo with hgo | hgo
    · rw [hy] at hgo
      exact absurd hgo (by simp)
    · exact ⟨true, by rw [if_neg h1, if_pos hgo]⟩

/-- Every batch `performScan` dispatches carries the run's repository
context. -/
theorem performScan_context (inv : ScanInvocation) (c : List String) (pr : Bool)
    (b : Batch) (hb : b ∈ (performScan inv c pr).dispatched) :
    b.context = inv.remoteUrl.map repositoryContext := by
  simp only [performScan, List.mem_map] at hb
  obtain ⟨l, _, rfl⟩ := hb
  rfl

/-- Every batch `runScanPath` dispatches carries the run's repository
context. -/
theorem runScanPath_context (inv : ScanInvocation) (b : Batch)
    (hb : b ∈ (runScanPath inv).dispatched) :
    b.context = inv.remoteUrl.map repositoryContext := by
  unfold runScanPath at hb
  split at hb
  · simp at hb
  · split at hb
    · simp at hb
    · split at hb
      · simp at hb
      · dsimp only at hb
        split at hb
        · exact performScan_context _ _ _ _ hb
        · split at hb
          · exact performScan_context _ _ _ _ hb
          · simp at hb

/-! ## Claim theorems -/

/-- C1: when every explicitly named path exists and one of them matches a
configured ignore rule, the command fails with the usage error "An ignored
file or directory cannot be scanned." and no batch is ever dispatched to the
scanning service. -/
theorem scan_ignored_path_usage_error (inv : ScanInvocation) (t0 : String)
    (hex : ∀ t ∈ inv.targets, pathExists inv.filesystem t = true)
    (ht0 : t0 ∈ inv.targets)
    (hig : isIgnored (mergedRules inv) t0 = true) :
    (runScanPath inv).exitCode = ExitCode.USAGE_ERROR ∧
    (runScanPath inv).message = ignoredScanMessage ∧
    (runScanPath inv).dispatched = [] := by
  have hfind : inv.targets.find? (fun t => !pathExists inv.filesystem t) = none := by
    apply List.find?_eq_none.mpr
    intro x hx
    simp [hex x hx]
  have hany : (inv.targets.any fun t => isIgnored (mergedRules inv) t) = true :=
    List.any_eq_true.mpr ⟨t0, ht0, hig⟩
  unfold runScanPath
  rw [hfind, hany]
  exact ⟨rfl, rfl, rfl⟩

/-- C1 witness: the run of `test_scan_ignored_directory`, where the ignored
`file1` is named on the command line. -/
theorem scan_ignored_path_usage_error_witness :
    (runScanPath ignoredPathInv).exitCode = ExitCode.USAGE_ERROR ∧
    (runScanPath ignoredPathInv).message = ignoredScanMessage ∧
    (runScanPath ignoredPathInv).dispatched = [] :=
  scan_ignored_path_usage_error ignoredPathInv "file1" (by decide) (by decide)
    (by decide)

/-- C2: with candidates and no `-y`, a negative answer to the confirmation
prompt terminates the run with exit code 0, dispatching nothing and reporting
nothing; with `-y` the run never prompts the operator. -/
theorem scan_confirmation_gate (inv : ScanInvocation)
    (h : usageErrorFree inv = true) :
    (inv.yes = false → inv.answerYes = false →
      collectCandidates inv.filesystem inv.targets (mergedRules inv) ≠ [] →
      (runScanPath inv).exitCode = ExitCode.SUCCESS ∧
      (runScanPath inv).dispatched = [] ∧
      (runScanPath inv).report = []) ∧
    (inv.yes = true → (runScanPath inv).prompted = false) := by
  rw [runScanPath_ok_eq inv h]
  constructor
  · intro hy ha hne
    have hemp : (collectCandidates inv.filesystem inv.targets
        (mergedRules inv)).isEmpty = false := by
      cases hc : collectCandidates inv.filesystem inv.targets (mergedRules inv) with
      | nil => exact absurd hc hne
      | cons a l => rfl
    rw [hy, hemp]
    simp [abortResult, ha]
  · intro hy
    rw [hy]
    simp [performScan]

/-- C2 witness: `test_files_abort` (negative answer aborts with success) and
`test_files_yes` (`-y` never prompts). -/
theorem scan_confirmation_gate_witness :
    ((runScanPath abortInv).exitCode = ExitCode.SUCCESS ∧
      (runScanPath abortInv).dispatched = [] ∧
      (runScanPath abortInv).report = []) ∧
    (runScanPath yesInv).prompted = false :=
  ⟨(scan_confirmation_gate abortInv (by decide)).1 rfl rfl (by decide),
   (scan_confirmation_gate yesInv (by decide)).2 rfl⟩

/-- C3: with `--exit-zero` and detected secrets, the exit code is 0 and the
report still carries the full filtered findings. -/
theorem scan_exit_zero_reports_fully (inv : ScanInvocation)
    (h : usageErrorFree inv = true)
    (hgo : inv.yes = true ∨ inv.answerYes = true)
    (hz : inv.exitZero = true)
    (hf : filteredFindings inv ≠ []) :
    (runScanPath inv).exitCode = ExitCode.SUCCESS ∧
    (runScanPath inv).report = filteredFindings inv := by
  obtain ⟨pr, hrun⟩ := runScanPath_go inv h hgo
  rw [hrun]
  simp [performScan, hz]

/-- C3 witness: `test_scan_file_secret_exit_zero`, a secret found under
`--exit-zero`. -/
theorem scan_exit_zero_reports_fully_witness :
    (runScanPath exitZeroInv).exitCode = ExitCode.SUCCESS ∧
    (runScanPath exitZeroInv).report = filteredFindings exitZeroInv :=
  scan_exit_zero_reports_fully exitZeroInv (by decide) (Or.inl rfl) rfl (by decide)

/-- C4: every dispatched batch carries the repository context derived from
the configured remote by stripping scheme, credentials and the `.git` suffix
(`https://github.com/owner/repository.git` yields
`github.com/owner/repository`); with no remote the field is omitted. -/
theorem scan_batches_carry_repository_context (inv : ScanInvocation) (b : Batch)
    (hb : b ∈ (runScanPath inv).dispatched) :
    b.context = inv.remoteUrl.map repositoryContext ∧
    (inv.remoteUrl = none → b.context = none) ∧
    repositoryContext "https://github.com/owner/repository.git"
      = "github.com/owner/repository" := by
  have hc := runScanPath_context inv b hb
  refine ⟨hc, ?_, by decide⟩
  intro hn
  rw [hn] at hc
  simpa using hc

/-- C4 witness: the run of `test_scan_context_repository`, whose single batch
carries context `github.com/owner/repository`. -/
theorem scan_batches_carry_repository_context_witness :
    (Batch.mk ["file1", "file2"] (some "github.com/owner/repository")).context
        = repoInv.remoteUrl.map repositoryContext ∧
    (repoInv.remoteUrl = none →
      (Batch.mk ["file1", "file2"]
        (some "github.com/owner/repository")).context = none) ∧
    repositoryContext "https://github.com/owner/repository.git"
      = "github.com/owner/repository" :=
  scan_batches_carry_repository_context repoInv
    (Batch.mk ["file1", "file2"] (some "github.com/owner/repository")) (by decide)

/-- C5: the collected candidate set is exactly the walked files matching no
exclusion rule; the literal rules of `test_directory_verbose_ignored_abort`
remove exactly `file1` and `dir/file2`, and the glob rule `dir/subdir/*` of
`test_directory_verbose_ignored_path_abort` removes every file under
`dir/subdir` and nothing else. -/
theorem collect_exclusion_semantics :
    (∀ (fs : FileSystem) (targets rules : List String) (f : String),
      f ∈ collectCandidates fs targets rules ↔
        ((∃ t ∈ targets, f ∈ filesUnder fs t) ∧
          ∀ r ∈ rules, matchRule r f = false)) ∧
    collectCandidates ["file1", "dir/file2", "dir/subdir/file3", "dir/subdir/file4"]
        ["./"] ["file1", "dir/file2"]
      = ["dir/subdir/file3", "dir/subdir/file4"] ∧
    collectCandidates ["file1", "dir/file2", "dir/subdir/file3", "dir/subdir/file4"]
        ["./"] ["dir/subdir/*"]
      = ["file1", "dir/file2"] :=
  ⟨mem_collectCandidates_iff, by decide, by decide⟩

/-- C6: a Finding is in the final report exactly when the server returned it
and its detector name is not in the `-b` exclusion set; when every returned
Finding is excluded, the run reports that no secrets have been found. -/
theorem scan_ignore_detectors_filtering (inv : ScanInvocation)
    (h : usageErrorFree inv = true)
    (hgo : inv.yes = true ∨ inv.answerYes = true) :
    (∀ f, f ∈ (runScanPath inv).report ↔
      (f ∈ inv.serverFindings ∧
        inv.ignoredDetectors.contains f.detector = false)) ∧
    ((∀ f ∈ inv.serverFindings, inv.ignoredDetectors.contains f.detector = true) →
      (runScanPath inv).report = [] ∧
      (runScanPath inv).message = noSecretsMessage) := by
  obtain ⟨pr, hrun⟩ := runScanPath_go inv h hgo
  rw [hrun]
  constructor
  · intro f
    simp [performScan, filteredFindings, List.mem_filter]
  · intro hall
    have hnil : filteredFindings inv = [] := by
      apply List.filter_eq_nil_iff.mpr
      intro f hf
      have h2 := hall f hf
      simp at h2 ⊢
      exact h2
    constructor
    · simp [performScan, hnil]
    · simp [performScan, hnil, noSecretsMessage]

/-- C6 witness: `test_ignore_detectors` with both detector names excluded —
everything is dropped and the run reports no secrets. -/
theorem scan_ignore_detectors_filtering_witness :
    (∀ f, f ∈ (runScanPath detectorInv).report ↔
      (f ∈ detectorInv.serverFindings ∧
        detectorInv.ignoredDetectors.contains f.detector = false)) ∧
    ((∀ f ∈ detectorInv.serverFindings,
        detectorInv.ignoredDetectors.contains f.detector = true) →
      (runScanPath detectorInv).report = [] ∧
      (runScanPath detectorInv).message = noSecretsMessage) :=
  scan_ignore_detectors_filtering detectorInv (by decide) (Or.inl rfl)

/-- C7: a named path missing from disk aborts the whole command with a usage
error (a distinct non-zero exit code, message naming the missing path) and no
batch is dispatched for any other named path. -/
theorem scan_nonexistent_path_usage_error (inv : ScanInvocation)
    (hbad : ∃ t ∈ inv.targets, pathExists inv.filesystem t = false) :
    (runScanPath inv).exitCode = ExitCode.USAGE_ERROR ∧
    (∃ p, pathExists inv.filesystem p = false ∧
      (runScanPath inv).message = doesNotExistMessage p) ∧
    (runScanPath inv).dispatched = [] ∧
    ExitCode.USAGE_ERROR ≠ ExitCode.SUCCESS ∧
    ExitCode.USAGE_ERROR ≠ ExitCode.SCAN_FOUND_PROBLEMS := by
  obtain ⟨t, ht, hf⟩ := hbad
  rcases hfind : inv.targets.find? (fun t => !pathExists inv.filesystem t) with _ | t'
  · exfalso
    have := List.find?_eq_none.mp hfind t ht
    simp [hf] at this
  · have hp0 := List.find?_some hfind
    have hp' : pathExists inv.filesystem t' = false := by
      simpa using hp0
    unfold runScanPath
    rw [hfind]
    exact ⟨rfl, ⟨t', hp', rfl⟩, rfl, by decide, by decide⟩

/-- C7 witness: `test_directory_error`, scanning `./ewe-failing-test` which
does not exist. -/
theorem scan_nonexistent_path_usage_error_witness :
    (runScanPath missingPathInv).exitCode = ExitCode.USAGE_ERROR ∧
    (∃ p, pathExists missingPathInv.filesystem p = false ∧
      (runScanPath missingPathInv).message = doesNotExistMessage p) ∧
    (runScanPath missingPathInv).dispatched = [] ∧
    ExitCode.USAGE_ERROR ≠ ExitCode.SUCCESS ∧
    ExitCode.USAGE_ERROR ≠ ExitCode.SCAN_FOUND_PROBLEMS :=
  scan_nonexistent_path_usage_error missingPathInv
    ⟨"./ewe-failing-test", by decide, by decide⟩

/-- C8: a file on disk below a target and excluded by no rule is collected
whether or not it appears in a version-control tracked set: collection is
independent of tracking. -/
theorem scan_includes_untracked_files (fs : FileSystem)
    (targets rules tracked : List String) (f : String)
    (hdisk : ∃ t ∈ targets, f ∈ filesUnder fs t)
    (hexcl : ∀ r ∈ rules, matchRule r f = false)
    (huntracked : f ∉ tracked) :
    f ∈ collectCandidates fs targets rules :=
  (mem_collectCandidates_iff fs targets rules f).mpr ⟨hdisk, hexcl⟩

/-- C8 witness: `test_scan_path_should_detect_non_git_files` — the
uncommitted `git_repo/not_committed.js` is still collected. -/
theorem scan_includes_untracked_files_witness :
    "git_repo/not_committed.js" ∈
      collectCandidates ["git_repo/committed_file.js", "git_repo/not_committed.js"]
        ["."] [] :=
  scan_includes_untracked_files
    ["git_repo/committed_file.js", "git_repo/not_committed.js"] ["."] []
    ["git_repo/committed_file.js"] "git_repo/not_committed.js"
    ⟨".", by decide, by decide⟩ (by decide) (by decide)

/-- C9: scanning one file whose single Finding carries no validity
information reports exactly that Finding — validity label "No Checker",
detector name, occurrence count, dashboard flag, incident URL or "N/A", and
fingerprint — and exits with the distinct ProblemsFound code. -/
theorem scan_single_unchecked_secret_report (inv : ScanInvocation) (f : Finding)
    (h : usageErrorFree inv = true)
    (hgo : inv.yes = true ∨ inv.answerYes = true)
    (hz : inv.exitZero = false)
    (hsf : inv.serverFindings = [f])
    (hd : inv.ignoredDetectors = [])
    (hv : f.validity = none) :
    (runScanPath inv).report = [f] ∧
    (runScanPath inv).exitCode = ExitCode.SCAN_FOUND_PROBLEMS ∧
    validityLabel f.validity = "No Checker" ∧
    ("Secret detected: " ++ f.detector) ∈ renderFinding f ∧
    "Validity: No Checker" ∈ renderFinding f ∧
    ("Occurrences: " ++ toString f.occurrences) ∈ renderFinding f ∧
    ("Known by GitGuardian dashboard: " ++
      (if f.knownByDashboard then "YES" else "NO")) ∈ renderFinding f ∧
    ("Incident URL: " ++ incidentUrlLabel f.incidentUrl) ∈ renderFinding f ∧
    ("Secret SHA: " ++ f.fingerprint) ∈ renderFinding f ∧
    ExitCode.SCAN_FOUND_PROBLEMS ≠ ExitCode.SUCCESS := by
  obtain ⟨pr, hrun⟩ := runScanPath_go inv h hgo
  have hff : filteredFindings inv = [f] := by
    simp [filteredFindings, hsf, hd]
  rw [hrun]
  refine ⟨by simp [performScan, hff], by simp [performScan, hff, hz], ?_, ?_,
    ?_, ?_, ?_, ?_, ?_, by decide⟩
  · rw [hv]; rfl
  · simp [renderFinding]
  · simp [renderFinding, hv, validityLabel]
  · simp [renderFinding]
  · simp [renderFinding]
  · simp [renderFinding]
  · simp [renderFinding]

/-- C9 witness: `test_scan_file_secret` — one unchecked development secret in
`file_secret`. -/
theorem scan_single_unchecked_secret_report_witness :
    (runScanPath secretInv).report = [uncheckedFinding] ∧
    (runScanPath secretInv).exitCode = ExitCode.SCAN_FOUND_PROBLEMS ∧
    validityLabel uncheckedFinding.validity = "No Checker" ∧
    ("Secret detected: " ++ uncheckedFinding.detector)
      ∈ renderFinding uncheckedFinding ∧
    "Validity: No Checker" ∈ renderFinding uncheckedFinding ∧
    ("Occurrences: " ++ toString uncheckedFinding.occurrences)
      ∈ renderFinding uncheckedFinding ∧
    ("Known by GitGuardian dashboard: " ++
      (if uncheckedFinding.knownByDashboard then "YES" else "NO"))
      ∈ renderFinding uncheckedFinding ∧
    ("Incident URL: " ++ incidentUrlLabel uncheckedFinding.incidentUrl)
      ∈ renderFinding uncheckedFinding ∧
    ("Secret SHA: " ++ uncheckedFinding.fingerprint)
      ∈ renderFinding uncheckedFinding ∧
    ExitCode.SCAN_FOUND_PROBLEMS ≠ ExitCode.SUCCESS :=
  scan_single_unchecked_secret_report secretInv uncheckedFinding
    (by decide) (Or.inl rfl) rfl rfl rfl rfl

/-- C10: `config_set_cmd` raises `BadParameter` exactly when
`default_token_lifetime` is set to a non-integer or `--instance` (non-empty)
is given for a field that is not per-instance; an error path records no
`setattr` and no `save`, and every non-error path returns 0 after exactly one
save. -/
theorem config_set_error_and_save_discipline (field_name value : String)
    (field : ConfigField) (inst : Option String) :
    ((∃ e, (config_set_cmd field_name field value inst).2 = Except.error e) ↔
      ((field_name = "default_token_lifetime" ∧ pyInt? value = none) ∨
       (instanceTruthy inst = true ∧ field.per_instance_ok = false))) ∧
    ((∃ e, (config_set_cmd field_name field value inst).2 = Except.error e) →
      (config_set_cmd field_name field value inst).1 = []) ∧
    (∀ n, (config_set_cmd field_name field value inst).2 = Except.ok n →
      n = 0 ∧
      ((config_set_cmd field_name field value inst).1.filter
        ConfigEvent.isSave).length = 1) := by
  by_cases hd : field_name = "default_token_lifetime" ∧ pyInt? value = none
  · have hb : (field_name == "default_token_lifetime" &&
        (pyInt? value).isNone) = true := by
      simp [hd.1, hd.2]
    simp [config_set_cmd, hb, hd]
  · have hb : ¬((field_name == "default_token_lifetime" &&
        (pyInt? value).isNone) = true) := by
      simp only [Bool.and_eq_true, beq_iff_eq, Option.isNone_iff_eq_none]
      exact hd
    cases hti : instanceTruthy inst with
    | true =>
        cases hpo : field.per_instance_ok with
        | true => simp [config_set_cmd, hb, hti, hpo, hd, ConfigEvent.isSave]
        | false => simp [config_set_cmd, hb, hti, hpo, hd]
    | false =>
        cases hac : field.auth_config with
        | true => simp [config_set_cmd, hb, hti, hac, hd, ConfigEvent.isSave]
        | false => simp [config_set_cmd, hb, hti, hac, hd, ConfigEvent.isSave]

end GGShield

